import Mathlib

/-!
Shallow embedding of the request-execution pipeline of `src/FeatureFlagClient.ts`
(the `FeatureFlagClient` class, exported in the package as the pear-flag client):
request validation, cache-key derivation and lookup, the retry loop with its
per-attempt transport call, and structured error translation — together with the
configuration constructor and the setters the claims touch.

Modelling conventions:
* JavaScript strings that may be `undefined` at runtime are `Option String`;
  JS truthiness on them (`!x`) is `falsyStr` (both `undefined` and `""` are falsy).
* The injected transport (`this.fetch`) is an oracle `Nat → FetchOutcome α`
  mapping the attempt number to that attempt's outcome: either a rejected
  promise (network failure) or a resolved `Response`.
* A `Response` models the transport response object: its `ok` flag, the result
  of `.json()` (`none` when the body is not valid JSON, so `.json()` rejects),
  and the result of `.text()` (the raw body; always a string).  When the body
  parses, the parsed value is a `JsonBody`: its optional `error` field (read by
  the error path) and the payload the success path returns as-is.
* Side effects are an explicit event trace: one `Event.fetch` per issued network
  call (carrying the url and the options object built by the code), one
  `Event.sleep` per inter-attempt delay, and one `Event.scheduleEvict` per TTL
  timer scheduled by `setCache`.  Debug logging is a pure side channel (it never
  affects control flow, state or results) and is not traced.
* The `timeout` parameter is kept on `evaluateFlags` / `evaluateFlag` exactly
  because the source accepts it: the source creates an `AbortController` and
  schedules `controller.abort()` after `timeout` ms, but the options object
  passed to `fetch` is `\x7b method, headers, body \x7d` — it carries no
  `signal` field (hence `FetchInit.signal := none` below), so the abort can
  never reach the transport and the parameter has no observable effect.
* `JSON.stringify(request)` is injective on request records, so `FetchInit.body`
  keeps the request value itself rather than a rendered string.
-/

namespace PearFlag

/-- JS truthiness of a possibly-undefined string: `undefined` and `""` are falsy. -/
def falsyStr : Option String → Bool
  | none => true
  | some s => s.isEmpty

/-- JS template-literal rendering of a possibly-undefined string. -/
def jsStr : Option String → String
  | none => "undefined"
  | some s => s

/-- The `User` shape from `types.ts`; fields are optional at runtime (validation
checks `!request.user.id`). -/
structure User where
  id : Option String
  email : Option String
deriving Repr, DecidableEq

/-- A request record covering both `EvaluateFlagRequest` (with `flag`) and
`EvaluateFlagsRequest` (without): `flag := none` models a request object with no
`flag` property (`"flag" in request` is false). -/
structure FlagRequest where
  flag : Option String
  environment : Option String
  user : Option User
deriving Repr, DecidableEq

/-- The `EvaluateFlagResponse` shape from `types.ts`. -/
structure FlagResp where
  flag : String
  enabled : Bool
deriving Repr, DecidableEq

/-- The parse of a response body as JSON: the optional `error` field read by the
error path, and the payload returned whole by the success path. -/
structure JsonBody (α : Type) where
  error : Option String
  payload : α
deriving Repr, DecidableEq

/-- A transport response object: `.ok`, the outcome of `.json()` (`none` means
the body is not valid JSON and `.json()` rejects), and `.text()`'s raw body. -/
structure Response (α : Type) where
  ok : Bool
  json : Option (JsonBody α)
  text : String
deriving Repr, DecidableEq

/-- Outcome of one call to the injected transport: the promise rejects (network
failure) or resolves with a response. -/
inductive FetchOutcome (α : Type) where
  | reject (msg : String)
  | resolve (response : Response α)
deriving Repr, DecidableEq

/-- Errors thrown by the pipeline.  In the source all of these are `Error`
values distinguished only by provenance and message; the constructors record
that provenance.  `bodyParse` is the rejection of `response.json()` on a
success-status body (its message is the JSON engine's, not built by the code). -/
inductive EvalError where
  | validation (msg : String)
  | transport (msg : String)
  | http (msg : String)
  | bodyParse
deriving Repr, DecidableEq

/-- The retry policy record `\x7b retries, delay \x7d`. -/
structure RetryPolicy where
  retries : Nat
  delay : Nat
deriving Repr, DecidableEq

/-- The mutable fields of the `FeatureFlagClient` instance that the pipeline
reads or writes.  The two caches (JS `Map`s) are association lists. -/
structure ClientState where
  baseUrl : String
  debug : Bool
  defaultTimeout : Nat
  cacheTTL : Nat
  customHeaders : List (String × String)
  flagCache : List (String × FlagResp)
  flagsCache : List (String × List FlagResp)
  key : String
  retryPolicy : RetryPolicy
deriving Repr, DecidableEq

/-- Events observable outside the client during one call. -/
structure FetchInit where
  method : String
  headers : List (String × String)
  body : FlagRequest
  signal : Option Unit
deriving Repr, DecidableEq

inductive Event where
  | fetch (url : String) (init : FetchInit)
  | sleep (ms : Nat)
  | scheduleEvict (key : String) (ttl : Nat)
deriving Repr, DecidableEq

/-- JS `Map.set`: overwrite the binding if the key is present, else append. -/
def mapSet {α : Type} : List (String × α) → String → α → List (String × α)
  | [], k, v => [(k, v)]
  | (k', v') :: rest, k, v =>
      if k' = k then (k, v) :: rest else (k', v') :: mapSet rest k v

/-- Source `validateApiKey` (line 151): the regex `[0-9a-f]` of length 32 with
the `i` flag — 32 characters, each a digit or a hex letter of either case. -/
def isHexDigitChar (c : Char) : Bool :=
  c.isDigit || (Char.ofNat 97 ≤ c && c ≤ Char.ofNat 102) || (Char.ofNat 65 ≤ c && c ≤ Char.ofNat 70)

def validateApiKey (key : String) : Bool :=
  key.length == 32 && key.all isHexDigitChar

/-- Source `validateRequest` (lines 156-166). -/
def validateRequest (request : FlagRequest) (isMultiple : Bool) : Except String Unit :=
  if !isMultiple && request.flag.isNone then
    .error "Flag is required"
  else if falsyStr request.environment then
    .error "Environment is required"
  else if request.user.isNone || falsyStr (request.user.bind (·.id)) then
    .error "User ID is required"
  else
    .ok ()

/-- Source `getCacheKey` (lines 168-170).  Only called after validation has
succeeded, so `environment` and `user.id` are present non-empty strings there. -/
def getCacheKey (request : FlagRequest) : String :=
  jsStr request.environment ++ ":" ++ jsStr (request.user.bind (·.id))

/-- Source `getHeaders` (lines 128-134): the two fixed headers spread-merged
with `customHeaders`, the custom map winning on key collisions. -/
def getHeaders (st : ClientState) : List (String × String) :=
  ([("Content-Type", "application/json"), ("x-api-key", st.key)].filter
    (fun p => (st.customHeaders.lookup p.1).isNone)) ++ st.customHeaders

/-- Source `handleErrorResponse` (lines 172-186). -/
def handleErrorResponse {α : Type} (response : Response α) (errorMessage : String) :
    Except EvalError α :=
  if !response.ok then
    let errorDetail := "Internal Server Error"
    let errorDetail :=
      match response.json with
      | some errorResponse => errorResponse.error.getD errorDetail
      | none => response.text
    .error (.http (errorMessage ++ ": " ++ errorDetail))
  else
    match response.json with
    | some body => .ok body.payload
    | none => .error .bodyParse

/-- Source `setCache` (lines 248-253): write the entry; when a positive TTL is
configured, schedule the deferred deletion timer. -/
def setCacheEvents (st : ClientState) (key : String) : List Event :=
  if st.cacheTTL > 0 then [.scheduleEvict key st.cacheTTL] else []

/-- The fetch event of one `evaluateFlags` attempt (lines 62-66): the options
object is `\x7b method, headers, body \x7d` — no `signal` field. -/
def fetchEventFlags (st : ClientState) (request : FlagRequest) : Event :=
  .fetch (st.baseUrl ++ "/api/v1/evaluate/flags")
    { method := "POST", headers := getHeaders st, body := request, signal := none }

/-- The fetch event of one `evaluateFlag` attempt (lines 106-110). -/
def fetchEventFlag (st : ClientState) (request : FlagRequest) : Event :=
  .fetch (st.baseUrl ++ "/api/v1/evaluate/flag")
    { method := "POST", headers := getHeaders st, body := request, signal := none }

/-- One attempt of the `evaluateFlags` try-block (lines 60-72): issue the call;
a transport rejection or a `handleErrorResponse` failure is the attempt's error. -/
def runAttemptFlags (st : ClientState) (request : FlagRequest)
    (transport : Nat → FetchOutcome (List FlagResp)) (attempt : Nat) :
    Except EvalError (List FlagResp) × List Event :=
  match transport attempt with
  | .reject msg => (.error (.transport msg), [fetchEventFlags st request])
  | .resolve response =>
      (handleErrorResponse response "Failed to evaluate flags", [fetchEventFlags st request])

/-- One attempt of the `evaluateFlag` try-block (lines 104-116). -/
def runAttemptFlag (st : ClientState) (request : FlagRequest)
    (transport : Nat → FetchOutcome FlagResp) (attempt : Nat) :
    Except EvalError FlagResp × List Event :=
  match transport attempt with
  | .reject msg => (.error (.transport msg), [fetchEventFlag st request])
  | .resolve response =>
      (handleErrorResponse response "Failed to evaluate flag", [fetchEventFlag st request])

/-- The retry loop of `evaluateFlags` (lines 58-81): `for attempt = 1;
attempt <= retries; attempt++`.  On success: cache write plus return.  On
failure: rethrow when `attempt === retries` (line 75; `new Error(error.message)`
preserves the message, so the same error value is surfaced), else sleep `delay`
ms and run the next attempt.  Falling out of the loop resolves `undefined`
(`.ok none`). -/
def evaluateFlagsLoop (st : ClientState) (request : FlagRequest)
    (transport : Nat → FetchOutcome (List FlagResp)) (attempt : Nat) :
    Except EvalError (Option (List FlagResp)) × ClientState × List Event :=
  if h : st.retryPolicy.retries < attempt then
    (.ok none, st, [])
  else
    match runAttemptFlags st request transport attempt with
    | (.ok flags, evs) =>
        let cacheKey := getCacheKey request
        (.ok (some flags),
         { st with flagsCache := mapSet st.flagsCache cacheKey flags },
         evs ++ setCacheEvents st cacheKey)
    | (.error e, evs) =>
        if attempt = st.retryPolicy.retries then
          (.error e, st, evs)
        else
          let rest := evaluateFlagsLoop st request transport (attempt + 1)
          (rest.1, rest.2.1, evs ++ .sleep st.retryPolicy.delay :: rest.2.2)
termination_by st.retryPolicy.retries + 1 - attempt
decreasing_by omega

/-- The retry loop of `evaluateFlag` (lines 102-125); identical shape except the
final-attempt test is `attempt >= retries` (line 119) and the error is rethrown
as-is (line 120). -/
def evaluateFlagLoop (st : ClientState) (request : FlagRequest)
    (transport : Nat → FetchOutcome FlagResp) (attempt : Nat) :
    Except EvalError (Option FlagResp) × ClientState × List Event :=
  if h : st.retryPolicy.retries < attempt then
    (.ok none, st, [])
  else
    match runAttemptFlag st request transport attempt with
    | (.ok flag, evs) =>
        let cacheKey := getCacheKey request
        (.ok (some flag),
         { st with flagCache := mapSet st.flagCache cacheKey flag },
         evs ++ setCacheEvents st cacheKey)
    | (.error e, evs) =>
        if st.retryPolicy.retries ≤ attempt then
          (.error e, st, evs)
        else
          let rest := evaluateFlagLoop st request transport (attempt + 1)
          (rest.1, rest.2.1, evs ++ .sleep st.retryPolicy.delay :: rest.2.2)
termination_by st.retryPolicy.retries + 1 - attempt
decreasing_by omega

/-- Source `evaluateFlags` (lines 47-82): validate (a failure throws before any
other work), consult the multi-flag cache partition, and on a miss run the retry
loop from attempt 1.  The `timeout` parameter is accepted but — as explained in
the header — has no observable effect. -/
def evaluateFlags (st : ClientState) (request : FlagRequest) (timeout : Nat)
    (transport : Nat → FetchOutcome (List FlagResp)) :
    Except EvalError (Option (List FlagResp)) × ClientState × List Event :=
  match validateRequest request true with
  | .error msg => (.error (.validation msg), st, [])
  | .ok _ =>
      let cacheKey := getCacheKey request
      match st.flagsCache.lookup cacheKey with
      | some cached => (.ok (some cached), st, [])
      | none =>
          let _ := timeout
          evaluateFlagsLoop st request transport 1

/-- Source `evaluateFlag` (lines 91-126): same pipeline against the single-flag
cache partition and endpoint, validating with `isMultiple` unset. -/
def evaluateFlag (st : ClientState) (request : FlagRequest) (timeout : Nat)
    (transport : Nat → FetchOutcome FlagResp) :
    Except EvalError (Option FlagResp) × ClientState × List Event :=
  match validateRequest request false with
  | .error msg => (.error (.validation msg), st, [])
  | .ok _ =>
      let cacheKey := getCacheKey request
      match st.flagCache.lookup cacheKey with
      | some cached => (.ok (some cached), st, [])
      | none =>
          let _ := timeout
          evaluateFlagLoop st request transport 1

def DEFAULT_BASE_URL : String := "http://localhost:5173"

/-- The `FeatureFlagClientConfig` shape (named `PearFlagClientConfig` in
`types.ts`); optional fields are `Option`. -/
structure ClientConfig where
  key : String
  baseUrl : Option String
  customHeaders : Option (List (String × String))
  debug : Option Bool
  defaultTimeout : Option Nat
deriving Repr, DecidableEq

/-- JS `x || d` for an optional string (both `undefined` and `""` pick `d`). -/
def orDefaultStr (x : Option String) (d : String) : String :=
  match x with
  | some s => if s.isEmpty then d else s
  | none => d

/-- JS `x || d` for an optional number (both `undefined` and `0` pick `d`). -/
def orDefaultNat (x : Option Nat) (d : Nat) : Nat :=
  match x with
  | some n => if n = 0 then d else n
  | none => d

/-- The constructor (lines 25-38): reject a falsy or non-32-hex key, else
initialise the instance fields (field initialisers included: empty caches,
`cacheTTL = 0`, retry policy `\x7b retries: 3, delay: 1000 \x7d`). -/
def mkClient (config : ClientConfig) : Except String ClientState :=
  if config.key.isEmpty || !validateApiKey config.key then
    .error "Invalid API key. The key must be a 32-character hexadecimal string."
  else
    .ok {
      baseUrl := orDefaultStr config.baseUrl DEFAULT_BASE_URL
      debug := config.debug.getD false
      defaultTimeout := orDefaultNat config.defaultTimeout 5000
      cacheTTL := 0
      customHeaders := config.customHeaders.getD []
      flagCache := []
      flagsCache := []
      key := config.key
      retryPolicy := { retries := 3, delay := 1000 } }

/-- Source `setApiKey` (lines 221-227): only a falsy (empty) key is rejected;
no format validation. -/
def setApiKey (st : ClientState) (key : String) : Except String ClientState :=
  if key.isEmpty then .error "API key is required"
  else .ok { st with key := key }

/-- Source `setRetryPolicy` (lines 234-237). -/
def setRetryPolicy (st : ClientState) (retries delay : Nat) : ClientState :=
  { st with retryPolicy := { retries := retries, delay := delay } }

/-- The event trace of a run of `n + 1` failing attempts: fetches separated by
fixed delays. -/
def failTrace (e : Event) (delay : Nat) : Nat → List Event
  | 0 => [e]
  | n + 1 => e :: .sleep delay :: failTrace e delay n

/-- Number of network calls recorded in a trace. -/
def countFetch : List Event → Nat
  | [] => 0
  | .fetch _ _ :: rest => countFetch rest + 1
  | .sleep _ :: rest => countFetch rest
  | .scheduleEvict _ _ :: rest => countFetch rest

theorem countFetch_failTrace (u : String) (i : FetchInit) (d n : Nat) :
    countFetch (failTrace (.fetch u i) d n) = n + 1 := by
  induction n with
  | zero => rfl
  | succ n ih => simp only [failTrace, countFetch, ih]

theorem lookup_mapSet_self {α : Type} (m : List (String × α)) (k : String) (v : α) :
    (mapSet m k v).lookup k = some v := by
  induction m with
  | nil => simp [mapSet, List.lookup]
  | cons p rest ih =>
      rcases p with ⟨k', v'⟩
      by_cases h : k' = k
      · simp [mapSet, h, List.lookup_cons]
      · simp only [mapSet, if_neg h, List.lookup_cons]
        have : (k == k') = false := by
          simp [beq_iff_eq]
          exact fun hk => h hk.symm
        simp [this, ih]

theorem runAttemptFlags_snd (st : ClientState) (request : FlagRequest)
    (transport : Nat → FetchOutcome (List FlagResp)) (attempt : Nat) :
    (runAttemptFlags st request transport attempt).2 = [fetchEventFlags st request] := by
  cases h : transport attempt <;> simp [runAttemptFlags, h]

theorem runAttemptFlag_snd (st : ClientState) (request : FlagRequest)
    (transport : Nat → FetchOutcome FlagResp) (attempt : Nat) :
    (runAttemptFlag st request transport attempt).2 = [fetchEventFlag st request] := by
  cases h : transport attempt <;> simp [runAttemptFlag, h]

theorem runAttemptFlags_eq_error (st : ClientState) (request : FlagRequest)
    (transport : Nat → FetchOutcome (List FlagResp)) (attempt : Nat) (e : EvalError)
    (h : (runAttemptFlags st request transport attempt).1 = .error e) :
    runAttemptFlags st request transport attempt = (.error e, [fetchEventFlags st request]) :=
  calc runAttemptFlags st request transport attempt
      = ((runAttemptFlags st request transport attempt).1,
         (runAttemptFlags st request transport attempt).2) := rfl
    _ = (.error e, [fetchEventFlags st request]) := by rw [h, runAttemptFlags_snd]

theorem runAttemptFlag_eq_error (st : ClientState) (request : FlagRequest)
    (transport : Nat → FetchOutcome FlagResp) (attempt : Nat) (e : EvalError)
    (h : (runAttemptFlag st request transport attempt).1 = .error e) :
    runAttemptFlag st request transport attempt = (.error e, [fetchEventFlag st request]) :=
  calc runAttemptFlag st request transport attempt
      = ((runAttemptFlag st request transport attempt).1,
         (runAttemptFlag st request transport attempt).2) := rfl
    _ = (.error e, [fetchEventFlag st request]) := by rw [h, runAttemptFlag_snd]

theorem runAttemptFlags_eq_ok (st : ClientState) (request : FlagRequest)
    (transport : Nat → FetchOutcome (List FlagResp)) (attempt : Nat) (v : List FlagResp)
    (h : (runAttemptFlags st request transport attempt).1 = .ok v) :
    runAttemptFlags st request transport attempt = (.ok v, [fetchEventFlags st request]) :=
  calc runAttemptFlags st request transport attempt
      = ((runAttemptFlags st request transport attempt).1,
         (runAttemptFlags st request transport attempt).2) := rfl
    _ = (.ok v, [fetchEventFlags st request]) := by rw [h, runAttemptFlags_snd]

theorem runAttemptFlag_eq_ok (st : ClientState) (request : FlagRequest)
    (transport : Nat → FetchOutcome FlagResp) (attempt : Nat) (v : FlagResp)
    (h : (runAttemptFlag st request transport attempt).1 = .ok v) :
    runAttemptFlag st request transport attempt = (.ok v, [fetchEventFlag st request]) :=
  calc runAttemptFlag st request transport attempt
      = ((runAttemptFlag st request transport attempt).1,
         (runAttemptFlag st request transport attempt).2) := rfl
    _ = (.ok v, [fetchEventFlag st request]) := by rw [h, runAttemptFlag_snd]

theorem evaluateFlagsLoop_exit (st : ClientState) (request : FlagRequest)
    (transport : Nat → FetchOutcome (List FlagResp)) (attempt : Nat)
    (h : st.retryPolicy.retries < attempt) :
    evaluateFlagsLoop st request transport attempt = (.ok none, st, []) := by
  rw [evaluateFlagsLoop, dif_pos h]

theorem evaluateFlagLoop_exit (st : ClientState) (request : FlagRequest)
    (transport : Nat → FetchOutcome FlagResp) (attempt : Nat)
    (h : st.retryPolicy.retries < attempt) :
    evaluateFlagLoop st request transport attempt = (.ok none, st, []) := by
  rw [evaluateFlagLoop, dif_pos h]

theorem evaluateFlagsLoop_step_ok (st : ClientState) (request : FlagRequest)
    (transport : Nat → FetchOutcome (List FlagResp)) (attempt : Nat) (v : List FlagResp)
    (hle : attempt ≤ st.retryPolicy.retries)
    (hv : (runAttemptFlags st request transport attempt).1 = .ok v) :
    evaluateFlagsLoop st request transport attempt =
      (.ok (some v), { st with flagsCache := mapSet st.flagsCache (getCacheKey request) v },
       fetchEventFlags st request :: setCacheEvents st (getCacheKey request)) := by
  rw [evaluateFlagsLoop, dif_neg (by omega), runAttemptFlags_eq_ok st request transport attempt v hv]
  rfl

theorem evaluateFlagLoop_step_ok (st : ClientState) (request : FlagRequest)
    (transport : Nat → FetchOutcome FlagResp) (attempt : Nat) (v : FlagResp)
    (hle : attempt ≤ st.retryPolicy.retries)
    (hv : (runAttemptFlag st request transport attempt).1 = .ok v) :
    evaluateFlagLoop st request transport attempt =
      (.ok (some v), { st with flagCache := mapSet st.flagCache (getCacheKey request) v },
       fetchEventFlag st request :: setCacheEvents st (getCacheKey request)) := by
  rw [evaluateFlagLoop, dif_neg (by omega), runAttemptFlag_eq_ok st request transport attempt v hv]
  rfl

theorem evaluateFlagsLoop_step_error (st : ClientState) (request : FlagRequest)
    (transport : Nat → FetchOutcome (List FlagResp)) (attempt : Nat) (e : EvalError)
    (hle : attempt ≤ st.retryPolicy.retries)
    (he : (runAttemptFlags st request transport attempt).1 = .error e) :
    evaluateFlagsLoop st request transport attempt =
      if attempt = st.retryPolicy.retries then
        (.error e, st, [fetchEventFlags st request])
      else
        ((evaluateFlagsLoop st request transport (attempt + 1)).1,
         (evaluateFlagsLoop st request transport (attempt + 1)).2.1,
         fetchEventFlags st request :: .sleep st.retryPolicy.delay ::
           (evaluateFlagsLoop st request transport (attempt + 1)).2.2) := by
  rw [evaluateFlagsLoop, dif_neg (by omega),
    runAttemptFlags_eq_error st request transport attempt e he]
  rfl

theorem evaluateFlagLoop_step_error (st : ClientState) (request : FlagRequest)
    (transport : Nat → FetchOutcome FlagResp) (attempt : Nat) (e : EvalError)
    (hle : attempt ≤ st.retryPolicy.retries)
    (he : (runAttemptFlag st request transport attempt).1 = .error e) :
    evaluateFlagLoop st request transport attempt =
      if st.retryPolicy.retries ≤ attempt then
        (.error e, st, [fetchEventFlag st request])
      else
        ((evaluateFlagLoop st request transport (attempt + 1)).1,
         (evaluateFlagLoop st request transport (attempt + 1)).2.1,
         fetchEventFlag st request :: .sleep st.retryPolicy.delay ::
           (evaluateFlagLoop st request transport (attempt + 1)).2.2) := by
  rw [evaluateFlagLoop, dif_neg (by omega),
    runAttemptFlag_eq_error st request transport attempt e he]
  rfl

theorem evaluateFlagsLoop_allFail (st : ClientState) (request : FlagRequest)
    (transport : Nat → FetchOutcome (List FlagResp)) (err : Nat → EvalError)
    (hfail : ∀ a, (runAttemptFlags st request transport a).1 = .error (err a)) :
    ∀ n attempt, 1 ≤ attempt → attempt + n = st.retryPolicy.retries →
      evaluateFlagsLoop st request transport attempt =
        (.error (err st.retryPolicy.retries), st,
         failTrace (fetchEventFlags st request) st.retryPolicy.delay n) := by
  intro n
  induction n with
  | zero =>
      intro attempt h1 h2
      have ha : attempt = st.retryPolicy.retries := by omega
      rw [evaluateFlagsLoop_step_error st request transport attempt _ (by omega) (hfail attempt),
        if_pos ha, ha]
      rfl
  | succ n ih =>
      intro attempt h1 h2
      rw [evaluateFlagsLoop_step_error st request transport attempt _ (by omega) (hfail attempt),
        if_neg (by omega), ih (attempt + 1) (by omega) (by omega)]
      rfl

theorem evaluateFlagLoop_allFail (st : ClientState) (request : FlagRequest)
    (transport : Nat → FetchOutcome FlagResp) (err : Nat → EvalError)
    (hfail : ∀ a, (runAttemptFlag st request transport a).1 = .error (err a)) :
    ∀ n attempt, 1 ≤ attempt → attempt + n = st.retryPolicy.retries →
      evaluateFlagLoop st request transport attempt =
        (.error (err st.retryPolicy.retries), st,
         failTrace (fetchEventFlag st request) st.retryPolicy.delay n) := by
  intro n
  induction n with
  | zero =>
      intro attempt h1 h2
      have ha : attempt = st.retryPolicy.retries := by omega
      rw [evaluateFlagLoop_step_error st request transport attempt _ (by omega) (hfail attempt),
        if_pos (by omega : st.retryPolicy.retries ≤ attempt), ha]
      rfl
  | succ n ih =>
      intro attempt h1 h2
      rw [evaluateFlagLoop_step_error st request transport attempt _ (by omega) (hfail attempt),
        if_neg (by omega), ih (attempt + 1) (by omega) (by omega)]
      rfl

/-- Every network call the multi-flag loop records carries an options object
with no abort signal. -/
theorem evaluateFlagsLoop_signal (st : ClientState) (request : FlagRequest)
    (transport : Nat → FetchOutcome (List FlagResp)) :
    ∀ n attempt, st.retryPolicy.retries + 1 - attempt ≤ n →
      ∀ u i, Event.fetch u i ∈ (evaluateFlagsLoop st request transport attempt).2.2 →
        i.signal = none := by
  intro n
  induction n with
  | zero =>
      intro attempt hn u i hmem
      rw [evaluateFlagsLoop_exit st request transport attempt (by omega)] at hmem
      simp at hmem
  | succ n ih =>
      intro attempt hn u i hmem
      by_cases hlt : st.retryPolicy.retries < attempt
      · rw [evaluateFlagsLoop_exit st request transport attempt hlt] at hmem
        simp at hmem
      · cases hres : (runAttemptFlags st request transport attempt).1 with
        | ok v =>
            rw [evaluateFlagsLoop_step_ok st request transport attempt v (by omega) hres] at hmem
            simp only [List.mem_cons] at hmem
            rcases hmem with hmem | hmem
            · simp only [fetchEventFlags, Event.fetch.injEq] at hmem
              rw [hmem.2]
            · unfold setCacheEvents at hmem
              by_cases httl : st.cacheTTL > 0 <;> simp [httl] at hmem
        | error e =>
            rw [evaluateFlagsLoop_step_error st request transport attempt e (by omega) hres] at hmem
            by_cases heq : attempt = st.retryPolicy.retries
            · rw [if_pos heq] at hmem
              simp only [List.mem_singleton, fetchEventFlags, Event.fetch.injEq] at hmem
              rw [hmem.2]
            · rw [if_neg heq] at hmem
              simp only [List.mem_cons] at hmem
              rcases hmem with hmem | hmem | hmem
              · simp only [fetchEventFlags, Event.fetch.injEq] at hmem
                rw [hmem.2]
              · cases hmem
              · exact ih (attempt + 1) (by omega) u i hmem

/-- Every network call the single-flag loop records carries an options object
with no abort signal. -/
theorem evaluateFlagLoop_signal (st : ClientState) (request : FlagRequest)
    (transport : Nat → FetchOutcome FlagResp) :
    ∀ n attempt, st.retryPolicy.retries + 1 - attempt ≤ n →
      ∀ u i, Event.fetch u i ∈ (evaluateFlagLoop st request transport attempt).2.2 →
        i.signal = none := by
  intro n
  induction n with
  | zero =>
      intro attempt hn u i hmem
      rw [evaluateFlagLoop_exit st request transport attempt (by omega)] at hmem
      simp at hmem
  | succ n ih =>
      intro attempt hn u i hmem
      by_cases hlt : st.retryPolicy.retries < attempt
      · rw [evaluateFlagLoop_exit st request transport attempt hlt] at hmem
        simp at hmem
      · cases hres : (runAttemptFlag st request transport attempt).1 with
        | ok v =>
            rw [evaluateFlagLoop_step_ok st request transport attempt v (by omega) hres] at hmem
            simp only [List.mem_cons] at hmem
            rcases hmem with hmem | hmem
            · simp only [fetchEventFlag, Event.fetch.injEq] at hmem
              rw [hmem.2]
            · unfold setCacheEvents at hmem
              by_cases httl : st.cacheTTL > 0 <;> simp [httl] at hmem
        | error e =>
            rw [evaluateFlagLoop_step_error st request transport attempt e (by omega) hres] at hmem
            by_cases heq : st.retryPolicy.retries ≤ attempt
            · rw [if_pos heq] at hmem
              simp only [List.mem_singleton, fetchEventFlag, Event.fetch.injEq] at hmem
              rw [hmem.2]
            · rw [if_neg heq] at hmem
              simp only [List.mem_cons] at hmem
              rcases hmem with hmem | hmem | hmem
              · simp only [fetchEventFlag, Event.fetch.injEq] at hmem
                rw [hmem.2]
              · cases hmem
              · exact ih (attempt + 1) (by omega) u i hmem

theorem evaluateFlags_signal (st : ClientState) (request : FlagRequest) (timeout : Nat)
    (transport : Nat → FetchOutcome (List FlagResp)) :
    ∀ u i, Event.fetch u i ∈ (evaluateFlags st request timeout transport).2.2 →
      i.signal = none := by
  intro u i hmem
  unfold evaluateFlags at hmem
  cases hv : validateRequest request true with
  | error msg => rw [hv] at hmem; simp at hmem
  | ok _ =>
      rw [hv] at hmem
      cases hc : st.flagsCache.lookup (getCacheKey request) with
      | some cached => simp only [hc] at hmem; simp at hmem
      | none =>
          simp only [hc] at hmem
          exact evaluateFlagsLoop_signal st request transport
            (st.retryPolicy.retries + 1 - 1) 1 (by omega) u i hmem

theorem evaluateFlag_signal (st : ClientState) (request : FlagRequest) (timeout : Nat)
    (transport : Nat → FetchOutcome FlagResp) :
    ∀ u i, Event.fetch u i ∈ (evaluateFlag st request timeout transport).2.2 →
      i.signal = none := by
  intro u i hmem
  unfold evaluateFlag at hmem
  cases hv : validateRequest request false with
  | error msg => rw [hv] at hmem; simp at hmem
  | ok _ =>
      rw [hv] at hmem
      cases hc : st.flagCache.lookup (getCacheKey request) with
      | some cached => simp only [hc] at hmem; simp at hmem
      | none =>
          simp only [hc] at hmem
          exact evaluateFlagLoop_signal st request transport
            (st.retryPolicy.retries + 1 - 1) 1 (by omega) u i hmem

/-- The Request Validator contract exactly as the spec words it (section 4.1):
the failure conditions in the spec's order, first match winning; `none` means
validation passes.  This definition follows the spec, not the source, and is
compared with `validateRequest` below. -/
def validationSpecContract (request : FlagRequest) (isMultiple : Bool) : Option String :=
  if isMultiple = false ∧ request.flag = none then
    some "Flag is required"
  else if request.environment = none ∨ request.environment = some "" then
    some "Environment is required"
  else if request.user = none ∨ request.user.bind (·.id) = none ∨
      request.user.bind (·.id) = some "" then
    some "User ID is required"
  else
    none

theorem falsyStr_eq_true_iff (o : Option String) :
    falsyStr o = true ↔ o = none ∨ o = some "" := by
  cases o with
  | none => simp [falsyStr]
  | some s => simp [falsyStr, String.isEmpty_iff]

/-- The source validator decides exactly the spec's contract. -/
theorem validateRequest_eq_contract (request : FlagRequest) (isMultiple : Bool) :
    validateRequest request isMultiple =
      (match validationSpecContract request isMultiple with
       | some msg => Except.error msg
       | none => Except.ok ()) := by
  unfold validateRequest validationSpecContract
  have hflag : (!isMultiple && request.flag.isNone) = true ↔
      (isMultiple = false ∧ request.flag = none) := by
    cases isMultiple <;> cases hf : request.flag <;> simp [hf]
  have henv : falsyStr request.environment = true ↔
      (request.environment = none ∨ request.environment = some "") :=
    falsyStr_eq_true_iff _
  have huser : (request.user.isNone || falsyStr (request.user.bind (·.id))) = true ↔
      (request.user = none ∨ request.user.bind (·.id) = none ∨
        request.user.bind (·.id) = some "") := by
    cases hu : request.user with
    | none => simp
    | some u => simp [falsyStr_eq_true_iff]
  by_cases h1 : isMultiple = false ∧ request.flag = none
  · rw [if_pos (hflag.mpr h1), if_pos h1]
  · rw [if_neg (fun hb => h1 (hflag.mp hb)), if_neg h1]
    by_cases h2 : request.environment = none ∨ request.environment = some ""
    · rw [if_pos (henv.mpr h2), if_pos h2]
    · rw [if_neg (fun hb => h2 (henv.mp hb)), if_neg h2]
      by_cases h3 : request.user = none ∨ request.user.bind (·.id) = none ∨
          request.user.bind (·.id) = some ""
      · rw [if_pos (huser.mpr h3), if_pos h3]
      · rw [if_neg (fun hb => h3 (huser.mp hb)), if_neg h3]

/-! Concrete fixtures used by witnesses and counterexamples. -/

def testUser : User := { id := some "user1", email := some "user1@example.com" }

def testRequest : FlagRequest :=
  { flag := some "feature1", environment := some "production", user := some testUser }

def testRequest2 : FlagRequest :=
  { flag := some "feature2", environment := some "production", user := some testUser }

def testRequestMulti : FlagRequest :=
  { flag := none, environment := some "production", user := some testUser }

def testState : ClientState :=
  { baseUrl := "https://api.example.com"
    debug := false
    defaultTimeout := 5000
    cacheTTL := 0
    customHeaders := []
    flagCache := []
    flagsCache := []
    key := "0da8f357ce7a2b01effe5992f295a592"
    retryPolicy := { retries := 2, delay := 7 } }

def rejectTransportF : Nat → FetchOutcome (List FlagResp) :=
  fun _ => .reject "network down"

def rejectTransportS : Nat → FetchOutcome FlagResp :=
  fun _ => .reject "network down"

def malformedOkTransport : Nat → FetchOutcome (List FlagResp) :=
  fun _ => .resolve { ok := true, json := none, text := "Invalid JSON" }

def feature1Resp : FlagResp := { flag := "feature1", enabled := true }

def okRespS : Response FlagResp :=
  { ok := true
    json := some { error := none, payload := feature1Resp }
    text := "" }

def okTransportS : Nat → FetchOutcome FlagResp :=
  fun _ => .resolve okRespS

def malformedOkTransportS : Nat → FetchOutcome FlagResp :=
  fun _ => .resolve { ok := true, json := none, text := "Invalid JSON" }

theorem evaluateFlagLoop_ok_lookup (st : ClientState) (request : FlagRequest)
    (transport : Nat → FetchOutcome FlagResp) :
    ∀ n attempt (v : FlagResp),
      st.retryPolicy.retries + 1 - attempt ≤ n →
      (evaluateFlagLoop st request transport attempt).1 = .ok (some v) →
      ((evaluateFlagLoop st request transport attempt).2.1).flagCache.lookup
        (getCacheKey request) = some v := by
  intro n
  induction n with
  | zero =>
      intro attempt v hn hres
      rw [evaluateFlagLoop_exit st request transport attempt (by omega)] at hres
      simp at hres
  | succ n ih =>
      intro attempt v hn hres
      by_cases hlt : st.retryPolicy.retries < attempt
      · rw [evaluateFlagLoop_exit st request transport attempt hlt] at hres
        simp at hres
      · cases hat : (runAttemptFlag st request transport attempt).1 with
        | ok w =>
            rw [evaluateFlagLoop_step_ok st request transport attempt w (by omega) hat]
              at hres ⊢
            simp only [Except.ok.injEq, Option.some.injEq] at hres
            rw [← hres]
            exact lookup_mapSet_self st.flagCache (getCacheKey request) w
        | error e =>
            rw [evaluateFlagLoop_step_error st request transport attempt e (by omega) hat]
              at hres ⊢
            by_cases hfin : st.retryPolicy.retries ≤ attempt
            · rw [if_pos hfin] at hres
              simp at hres
            · rw [if_neg hfin] at hres ⊢
              exact ih (attempt + 1) v (by omega) hres

/-- A successful `evaluateFlag` run leaves the returned value stored in the
single-flag cache partition under the request's derived key. -/
theorem evaluateFlag_ok_lookup (st : ClientState) (request : FlagRequest) (t : Nat)
    (transport : Nat → FetchOutcome FlagResp) (v : FlagResp) (st1 : ClientState)
    (evs : List Event)
    (h : evaluateFlag st request t transport = (.ok (some v), st1, evs)) :
    st1.flagCache.lookup (getCacheKey request) = some v := by
  unfold evaluateFlag at h
  cases hv : validateRequest request false with
  | error msg =>
      rw [hv] at h
      simp at h
  | ok u =>
      cases u
      rw [hv] at h
      cases hc : st.flagCache.lookup (getCacheKey request) with
      | some cached =>
          simp only [hc] at h
          simp only [Prod.mk.injEq, Except.ok.injEq, Option.some.injEq] at h
          rw [← h.2.1, hc, h.1]
      | none =>
          simp only [hc] at h
          have h1 : (evaluateFlagLoop st request transport 1).1 = .ok (some v) := by
            rw [h]
          have h2 := evaluateFlagLoop_ok_lookup st request transport
            (st.retryPolicy.retries + 1 - 1) 1 v (by omega) h1
          rw [h] at h2
          exact h2

/-- A concrete successful single-flag run, used to exercise C9. -/
theorem testFlag_success_run :
    evaluateFlag testState testRequest 5000 okTransportS =
      (.ok (some feature1Resp),
       { testState with
          flagCache := mapSet testState.flagCache (getCacheKey testRequest) feature1Resp },
       fetchEventFlag testState testRequest ::
         setCacheEvents testState (getCacheKey testRequest)) := by
  unfold evaluateFlag
  rw [show validateRequest testRequest false = .ok () from rfl]
  simp only [show testState.flagCache.lookup (getCacheKey testRequest) = none from rfl]
  exact evaluateFlagLoop_step_ok testState testRequest okTransportS 1 feature1Resp
    (by decide) rfl

/-- C1: the `timeout` parameter of `evaluateFlags` / `evaluateFlag` has no
observable effect whatsoever — results, state and event trace are identical for
any two timeout values — and every network call issued by either function
carries an options object with no abort signal, so the timer scheduled at
`timeoutMs` can never cancel the in-flight transport call, and a timed-out
attempt is never turned into an attempt failure. -/
theorem C1_timeout_unwired (st : ClientState) (request : FlagRequest) (t t' : Nat)
    (trF : Nat → FetchOutcome (List FlagResp)) (trS : Nat → FetchOutcome FlagResp) :
    evaluateFlags st request t trF = evaluateFlags st request t' trF ∧
    evaluateFlag st request t trS = evaluateFlag st request t' trS ∧
    (∀ u i, Event.fetch u i ∈ (evaluateFlags st request t trF).2.2 → i.signal = none) ∧
    (∀ u i, Event.fetch u i ∈ (evaluateFlag st request t trS).2.2 → i.signal = none) :=
  ⟨rfl, rfl, evaluateFlags_signal st request t trF, evaluateFlag_signal st request t trS⟩

theorem C1_timeout_unwired_witness :
    evaluateFlags testState testRequest 0 rejectTransportF =
      evaluateFlags testState testRequest 1000000 rejectTransportF :=
  (C1_timeout_unwired testState testRequest 0 1000000 rejectTransportF rejectTransportS).1

/-- C3 counterexample: `"new-api-key"` is not a 32-character hexadecimal string,
yet `setApiKey` accepts it without raising any error — refuting the claim that
the setter rejects bad key formats exactly as the constructor does. -/
theorem C3_counterexample :
    validateApiKey "new-api-key" = false ∧
    setApiKey testState "new-api-key" = .ok { testState with key := "new-api-key" } :=
  ⟨by decide, rfl⟩

/-- C3 amended: `setApiKey` raises an error (synchronously) exactly for the
empty string, accepting every non-empty string unchecked; the 32-character-hex
format validation happens only in the constructor. -/
theorem C3_setApiKey_rejects_only_empty (st : ClientState) (key : String)
    (config : ClientConfig) :
    setApiKey st key =
      (if key.isEmpty then .error "API key is required" else .ok { st with key := key }) ∧
    (mkClient config).toOption.isSome = validateApiKey config.key := by
  constructor
  · rfl
  · unfold mkClient
    cases hv : validateApiKey config.key with
    | false => simp [hv, Except.toOption]
    | true =>
        have hne : config.key.isEmpty = false := by
          cases hk : config.key.isEmpty
          · rfl
          · exfalso
            rw [String.isEmpty_iff] at hk
            rw [hk] at hv
            exact absurd hv (by decide)
        simp [hv, hne, Except.toOption]

/-- C5: request validation fails exactly under the spec's conditions, checked in
the spec's order with first match winning; and when validation fails, the
validation error is surfaced with no network call, no state modification and no
cache write. -/
theorem C5_validation_contract (request : FlagRequest) (isMultiple : Bool)
    (st : ClientState) (t t' : Nat) (trF : Nat → FetchOutcome (List FlagResp))
    (trS : Nat → FetchOutcome FlagResp) :
    (validateRequest request isMultiple =
      (match validationSpecContract request isMultiple with
       | some msg => Except.error msg
       | none => Except.ok ())) ∧
    (∀ msg, validateRequest request true = .error msg →
      evaluateFlags st request t trF = (.error (.validation msg), st, [])) ∧
    (∀ msg, validateRequest request false = .error msg →
      evaluateFlag st request t' trS = (.error (.validation msg), st, [])) := by
  refine ⟨validateRequest_eq_contract request isMultiple, ?_, ?_⟩
  · intro msg h
    unfold evaluateFlags
    rw [h]
  · intro msg h
    unfold evaluateFlag
    rw [h]

theorem C5_validation_contract_witness :
    evaluateFlags testState
      { flag := some "feature1", environment := none, user := some testUser } 5000
      rejectTransportF =
      (.error (.validation "Environment is required"), testState, []) :=
  (C5_validation_contract
    { flag := some "feature1", environment := none, user := some testUser } true testState
    5000 5000 rejectTransportF rejectTransportS).2.1 "Environment is required" rfl

/-- C6: for every request valid for the call's mode whose derived key hits the
cache partition matching the call's plurality, the cached value is returned
unchanged with no network call, no state change and no further events — each
entry point gated only on its own mode's validity and its own partition. -/
theorem C6_cache_hit_no_network (st : ClientState) (request : FlagRequest)
    (t t' : Nat) (trF : Nat → FetchOutcome (List FlagResp))
    (trS : Nat → FetchOutcome FlagResp) :
    (∀ vF, validateRequest request true = .ok () →
      st.flagsCache.lookup (getCacheKey request) = some vF →
      evaluateFlags st request t trF = (.ok (some vF), st, [])) ∧
    (∀ vS, validateRequest request false = .ok () →
      st.flagCache.lookup (getCacheKey request) = some vS →
      evaluateFlag st request t' trS = (.ok (some vS), st, [])) := by
  constructor
  · intro vF hv hh
    unfold evaluateFlags
    rw [hv]
    simp only [hh]
  · intro vS hv hh
    unfold evaluateFlag
    rw [hv]
    simp only [hh]

def cachedState : ClientState :=
  { testState with
    flagCache := [("production:user1", feature1Resp)]
    flagsCache := [("production:user1", [feature1Resp])] }

theorem C6_cache_hit_no_network_witness :
    evaluateFlags cachedState testRequestMulti 5000 rejectTransportF =
      (.ok (some [feature1Resp]), cachedState, []) ∧
    evaluateFlag cachedState testRequest 5000 rejectTransportS =
      (.ok (some feature1Resp), cachedState, []) :=
  ⟨(C6_cache_hit_no_network cachedState testRequestMulti 5000 5000 rejectTransportF
      rejectTransportS).1 [feature1Resp] rfl rfl,
   (C6_cache_hit_no_network cachedState testRequest 5000 5000 rejectTransportF
      rejectTransportS).2 feature1Resp rfl rfl⟩

/-- C7: for a non-2xx response, the surfaced message is the operation-specific
message, a colon-space separator, and the extracted detail: the JSON body's
`error` field when present, the raw text when the body is not JSON, and the
default "Internal Server Error" when the body is JSON without an `error`
field. -/
theorem C7_error_message_format {α : Type} (response : Response α) (errorMessage : String)
    (hok : response.ok = false) :
    (∀ j x, response.json = some j → j.error = some x →
      handleErrorResponse response errorMessage =
        .error (.http (errorMessage ++ ": " ++ x))) ∧
    (response.json = none →
      handleErrorResponse response errorMessage =
        .error (.http (errorMessage ++ ": " ++ response.text))) ∧
    (∀ j, response.json = some j → j.error = none →
      handleErrorResponse response errorMessage =
        .error (.http (errorMessage ++ ": " ++ "Internal Server Error"))) := by
  refine ⟨?_, ?_, ?_⟩
  · intro j x hj hx
    simp [handleErrorResponse, hok, hj, hx]
  · intro hj
    simp [handleErrorResponse, hok, hj]
  · intro j hj hx
    simp [handleErrorResponse, hok, hj, hx]

def errRespWithField : Response (List FlagResp) :=
  { ok := false, json := some { error := some "Custom error message", payload := [] }
    text := "raw" }

def errRespNonJson : Response (List FlagResp) :=
  { ok := false, json := none, text := "Invalid JSON" }

def errRespNoField : Response (List FlagResp) :=
  { ok := false, json := some { error := none, payload := [] }, text := "raw" }

theorem C7_error_message_format_witness :
    handleErrorResponse errRespWithField "Failed to evaluate flags" =
      .error (.http ("Failed to evaluate flags" ++ ": " ++ "Custom error message")) ∧
    handleErrorResponse errRespNonJson "Failed to evaluate flags" =
      .error (.http ("Failed to evaluate flags" ++ ": " ++ errRespNonJson.text)) ∧
    handleErrorResponse errRespNoField "Failed to evaluate flags" =
      .error (.http ("Failed to evaluate flags" ++ ": " ++ "Internal Server Error")) :=
  ⟨(C7_error_message_format errRespWithField "Failed to evaluate flags" rfl).1 _ _ rfl rfl,
   (C7_error_message_format errRespNonJson "Failed to evaluate flags" rfl).2.1 rfl,
   (C7_error_message_format errRespNoField "Failed to evaluate flags" rfl).2.2 _ rfl rfl⟩

/-- C8: with `retries = 0`, on any valid request missing its own partition's
cache the retry loop body never runs: no network attempt happens and the call
resolves with `undefined` (modelled `.ok none`) rather than an error, leaving
the state untouched — each entry point gated only on its own mode's validity
and its own partition's miss. -/
theorem C8_zero_retries_zero_attempts (st : ClientState) (request : FlagRequest)
    (t t' : Nat) (trF : Nat → FetchOutcome (List FlagResp))
    (trS : Nat → FetchOutcome FlagResp)
    (h0 : st.retryPolicy.retries = 0) :
    (validateRequest request true = .ok () →
      st.flagsCache.lookup (getCacheKey request) = none →
      evaluateFlags st request t trF = (.ok none, st, [])) ∧
    (validateRequest request false = .ok () →
      st.flagCache.lookup (getCacheKey request) = none →
      evaluateFlag st request t' trS = (.ok none, st, [])) := by
  constructor
  · intro hv hm
    unfold evaluateFlags
    rw [hv]
    simp only [hm]
    exact evaluateFlagsLoop_exit st request trF 1 (by omega)
  · intro hv hm
    unfold evaluateFlag
    rw [hv]
    simp only [hm]
    exact evaluateFlagLoop_exit st request trS 1 (by omega)

def zeroRetryState : ClientState :=
  { testState with retryPolicy := { retries := 0, delay := 7 } }

theorem C8_zero_retries_zero_attempts_witness :
    evaluateFlags zeroRetryState testRequestMulti 5000 rejectTransportF =
      (.ok none, zeroRetryState, []) ∧
    evaluateFlag zeroRetryState testRequest 5000 rejectTransportS =
      (.ok none, zeroRetryState, []) :=
  ⟨(C8_zero_retries_zero_attempts zeroRetryState testRequestMulti 5000 5000 rejectTransportF
      rejectTransportS rfl).1 rfl rfl,
   (C8_zero_retries_zero_attempts zeroRetryState testRequest 5000 5000 rejectTransportF
      rejectTransportS rfl).2 rfl rfl⟩

/-- C10: single-flag validation checks only the presence of the `flag` field,
not its content: with `flag` present but equal to the empty string, single-flag
validation behaves exactly like multi-flag validation (which skips the flag
check entirely and proceeds to the environment and user checks), and a request
that is otherwise valid passes validation outright. -/
theorem C10_empty_flag_passes_flag_check (env : Option String) (user : Option User) :
    validateRequest { flag := some "", environment := env, user := user } false =
      validateRequest { flag := some "", environment := env, user := user } true ∧
    validateRequest
      { flag := some "", environment := some "production", user := some testUser } false =
      .ok () := by
  constructor
  · simp [validateRequest]
  · rfl

/-- C2 counterexample: with `retries = 2` and a transport that always resolves
with a success-status response whose body is not valid JSON, both
`evaluateFlags` and `evaluateFlag` perform a second network attempt after the
first malformed success body — the failure is retried, not surfaced
immediately as the claim states. -/
theorem C2_counterexample :
    (evaluateFlags testState testRequestMulti 5000 malformedOkTransport).1 =
      .error .bodyParse ∧
    countFetch (evaluateFlags testState testRequestMulti 5000 malformedOkTransport).2.2 = 2 ∧
    (evaluateFlag testState testRequest 5000 malformedOkTransportS).1 =
      .error .bodyParse ∧
    countFetch (evaluateFlag testState testRequest 5000 malformedOkTransportS).2.2 = 2 := by
  have hF : evaluateFlags testState testRequestMulti 5000 malformedOkTransport =
      (.error .bodyParse, testState,
       failTrace (fetchEventFlags testState testRequestMulti) testState.retryPolicy.delay 1) := by
    unfold evaluateFlags
    rw [show validateRequest testRequestMulti true = .ok () from rfl]
    simp only [show testState.flagsCache.lookup (getCacheKey testRequestMulti) = none from rfl]
    exact evaluateFlagsLoop_allFail testState testRequestMulti malformedOkTransport
      (fun _ => .bodyParse) (fun a => rfl) 1 1 (by omega) (by decide)
  have hS : evaluateFlag testState testRequest 5000 malformedOkTransportS =
      (.error .bodyParse, testState,
       failTrace (fetchEventFlag testState testRequest) testState.retryPolicy.delay 1) := by
    unfold evaluateFlag
    rw [show validateRequest testRequest false = .ok () from rfl]
    simp only [show testState.flagCache.lookup (getCacheKey testRequest) = none from rfl]
    exact evaluateFlagLoop_allFail testState testRequest malformedOkTransportS
      (fun _ => .bodyParse) (fun a => rfl) 1 1 (by omega) (by decide)
  rw [hF, hS]
  refine ⟨rfl, ?_, rfl, ?_⟩
  · simp only [fetchEventFlags]
    exact countFetch_failTrace _ _ _ _
  · simp only [fetchEventFlag]
    exact countFetch_failTrace _ _ _ _

/-- C2 amended: a success-status response whose body fails to parse as JSON is
an ordinary attempt failure, retried like any transport failure, in both entry
points: with `retries = N` and every attempt producing such a response, each
entry point — gated only on its own mode's validity and its own partition's
cache miss — runs all `N` attempts (with the configured delay in between) and
surfaces the JSON parse failure only after the `N`-th attempt. -/
theorem C2_malformed_success_body_is_retried (st : ClientState) (request : FlagRequest)
    (t t' : Nat) (trF : Nat → FetchOutcome (List FlagResp))
    (trS : Nat → FetchOutcome FlagResp) (N : Nat)
    (hN : st.retryPolicy.retries = N) (h1 : 1 ≤ N)
    (hmalF : ∀ a, ∃ resp, trF a = .resolve resp ∧ resp.ok = true ∧ resp.json = none)
    (hmalS : ∀ a, ∃ resp, trS a = .resolve resp ∧ resp.ok = true ∧ resp.json = none) :
    (validateRequest request true = .ok () →
      st.flagsCache.lookup (getCacheKey request) = none →
      evaluateFlags st request t trF =
        (.error .bodyParse, st,
         failTrace (fetchEventFlags st request) st.retryPolicy.delay (N - 1)) ∧
      countFetch (evaluateFlags st request t trF).2.2 = N) ∧
    (validateRequest request false = .ok () →
      st.flagCache.lookup (getCacheKey request) = none →
      evaluateFlag st request t' trS =
        (.error .bodyParse, st,
         failTrace (fetchEventFlag st request) st.retryPolicy.delay (N - 1)) ∧
      countFetch (evaluateFlag st request t' trS).2.2 = N) := by
  have hfailF : ∀ a, (runAttemptFlags st request trF a).1 = .error .bodyParse := by
    intro a
    obtain ⟨resp, hr, hok, hj⟩ := hmalF a
    unfold runAttemptFlags
    rw [hr]
    simp [handleErrorResponse, hok, hj]
  have hfailS : ∀ a, (runAttemptFlag st request trS a).1 = .error .bodyParse := by
    intro a
    obtain ⟨resp, hr, hok, hj⟩ := hmalS a
    unfold runAttemptFlag
    rw [hr]
    simp [handleErrorResponse, hok, hj]
  constructor
  · intro hv hm
    have h : evaluateFlags st request t trF =
        (.error .bodyParse, st,
         failTrace (fetchEventFlags st request) st.retryPolicy.delay (N - 1)) := by
      unfold evaluateFlags
      rw [hv]
      simp only [hm]
      have := evaluateFlagsLoop_allFail st request trF (fun _ => .bodyParse) hfailF
        (N - 1) 1 (by omega) (by omega)
      rw [this]
    refine ⟨h, ?_⟩
    rw [h]
    simp only [fetchEventFlags]
    rw [countFetch_failTrace]
    omega
  · intro hv hm
    have h : evaluateFlag st request t' trS =
        (.error .bodyParse, st,
         failTrace (fetchEventFlag st request) st.retryPolicy.delay (N - 1)) := by
      unfold evaluateFlag
      rw [hv]
      simp only [hm]
      have := evaluateFlagLoop_allFail st request trS (fun _ => .bodyParse) hfailS
        (N - 1) 1 (by omega) (by omega)
      rw [this]
    refine ⟨h, ?_⟩
    rw [h]
    simp only [fetchEventFlag]
    rw [countFetch_failTrace]
    omega

theorem C2_malformed_success_body_is_retried_witness :
    evaluateFlags testState testRequestMulti 5000 malformedOkTransport =
      (.error .bodyParse, testState,
       failTrace (fetchEventFlags testState testRequestMulti) testState.retryPolicy.delay 1) ∧
    evaluateFlag testState testRequest 5000 malformedOkTransportS =
      (.error .bodyParse, testState,
       failTrace (fetchEventFlag testState testRequest) testState.retryPolicy.delay 1) :=
  ⟨((C2_malformed_success_body_is_retried testState testRequestMulti 5000 5000
      malformedOkTransport malformedOkTransportS 2 rfl (by omega)
      (fun a => ⟨_, rfl, rfl, rfl⟩) (fun a => ⟨_, rfl, rfl, rfl⟩)).1 rfl rfl).1,
   ((C2_malformed_success_body_is_retried testState testRequest 5000 5000
      malformedOkTransport malformedOkTransportS 2 rfl (by omega)
      (fun a => ⟨_, rfl, rfl, rfl⟩) (fun a => ⟨_, rfl, rfl, rfl⟩)).2 rfl rfl).1⟩

/-- C4: with `retries = N ≥ 1` and a transport whose every attempt fails, each
entry point — gated only on its own mode's validity and its own partition's
cache miss — performs exactly `N` network attempts, sleeps the configured
`delay` between consecutive attempts, surfaces the `N`-th attempt's error, and
leaves the state unchanged. -/
theorem C4_always_failing_transport_N_attempts (st : ClientState) (request : FlagRequest)
    (t t' : Nat) (trF : Nat → FetchOutcome (List FlagResp)) (trS : Nat → FetchOutcome FlagResp)
    (errF errS : Nat → EvalError) (N : Nat)
    (hN : st.retryPolicy.retries = N) (h1 : 1 ≤ N)
    (hfF : ∀ a, (runAttemptFlags st request trF a).1 = .error (errF a))
    (hfS : ∀ a, (runAttemptFlag st request trS a).1 = .error (errS a)) :
    (validateRequest request true = .ok () →
      st.flagsCache.lookup (getCacheKey request) = none →
      evaluateFlags st request t trF =
        (.error (errF N), st,
         failTrace (fetchEventFlags st request) st.retryPolicy.delay (N - 1)) ∧
      countFetch (evaluateFlags st request t trF).2.2 = N) ∧
    (validateRequest request false = .ok () →
      st.flagCache.lookup (getCacheKey request) = none →
      evaluateFlag st request t' trS =
        (.error (errS N), st,
         failTrace (fetchEventFlag st request) st.retryPolicy.delay (N - 1)) ∧
      countFetch (evaluateFlag st request t' trS).2.2 = N) := by
  constructor
  · intro hvF hmF
    have hF : evaluateFlags st request t trF =
        (.error (errF N), st,
         failTrace (fetchEventFlags st request) st.retryPolicy.delay (N - 1)) := by
      unfold evaluateFlags
      rw [hvF]
      simp only [hmF]
      have := evaluateFlagsLoop_allFail st request trF errF hfF (N - 1) 1 (by omega) (by omega)
      rw [this, hN]
    refine ⟨hF, ?_⟩
    rw [hF]
    simp only [fetchEventFlags]
    rw [countFetch_failTrace]
    omega
  · intro hvS hmS
    have hS : evaluateFlag st request t' trS =
        (.error (errS N), st,
         failTrace (fetchEventFlag st request) st.retryPolicy.delay (N - 1)) := by
      unfold evaluateFlag
      rw [hvS]
      simp only [hmS]
      have := evaluateFlagLoop_allFail st request trS errS hfS (N - 1) 1 (by omega) (by omega)
      rw [this, hN]
    refine ⟨hS, ?_⟩
    rw [hS]
    simp only [fetchEventFlag]
    rw [countFetch_failTrace]
    omega

theorem C4_always_failing_transport_N_attempts_witness :
    evaluateFlags testState testRequestMulti 5000 rejectTransportF =
      (.error (.transport "network down"), testState,
       failTrace (fetchEventFlags testState testRequestMulti) testState.retryPolicy.delay 1) ∧
    evaluateFlag testState testRequest 5000 rejectTransportS =
      (.error (.transport "network down"), testState,
       failTrace (fetchEventFlag testState testRequest) testState.retryPolicy.delay 1) :=
  ⟨((C4_always_failing_transport_N_attempts testState testRequestMulti 5000 5000
      rejectTransportF rejectTransportS
      (fun _ => .transport "network down") (fun _ => .transport "network down") 2
      rfl (by omega) (fun a => rfl) (fun a => rfl)).1 rfl rfl).1,
   ((C4_always_failing_transport_N_attempts testState testRequest 5000 5000
      rejectTransportF rejectTransportS
      (fun _ => .transport "network down") (fun _ => .transport "network down") 2
      rfl (by omega) (fun a => rfl) (fun a => rfl)).2 rfl rfl).1⟩

/-- C9: the single-flag cache key is derived only from environment and user id,
never from the flag name: after any successful `evaluateFlag` (first call), a
second `evaluateFlag` against the resulting state for a request with the same
environment and the same `user.id` (the flag field present but otherwise
arbitrary, the rest of the user record arbitrary) hits the cache and returns
the first call's result with no network call and no state change. -/
theorem C9_cache_key_ignores_flag (st st1 : ClientState) (req1 req2 : FlagRequest)
    (t t' : Nat) (tr1 tr2 : Nat → FetchOutcome FlagResp) (v : FlagResp) (evs : List Event)
    (henv : req2.environment = req1.environment)
    (hid : req2.user.bind (·.id) = req1.user.bind (·.id))
    (hflag : req2.flag.isSome = true)
    (hrun : evaluateFlag st req1 t tr1 = (.ok (some v), st1, evs)) :
    evaluateFlag st1 req2 t' tr2 = (.ok (some v), st1, []) := by
  have hv1 : validateRequest req1 false = .ok () := by
    cases hv : validateRequest req1 false with
    | error msg =>
        unfold evaluateFlag at hrun
        rw [hv] at hrun
        simp at hrun
    | ok u =>
        cases u
        rfl
  have hc1 : validationSpecContract req1 false = none := by
    rcases hcc : validationSpecContract req1 false with _ | msg
    · rfl
    · rw [validateRequest_eq_contract req1 false, hcc] at hv1
      cases hv1
  have hnegs : ¬(req1.environment = none ∨ req1.environment = some "") ∧
      ¬(req1.user = none ∨ req1.user.bind (·.id) = none ∨
        req1.user.bind (·.id) = some "") := by
    unfold validationSpecContract at hc1
    by_cases c1 : (false = false ∧ req1.flag = none)
    · rw [if_pos c1] at hc1; cases hc1
    · rw [if_neg c1] at hc1
      by_cases c2 : (req1.environment = none ∨ req1.environment = some "")
      · rw [if_pos c2] at hc1; cases hc1
      · rw [if_neg c2] at hc1
        by_cases c3 : (req1.user = none ∨ req1.user.bind (·.id) = none ∨
            req1.user.bind (·.id) = some "")
        · rw [if_pos c3] at hc1; cases hc1
        · exact ⟨c2, c3⟩
  have hv2 : validateRequest req2 false = .ok () := by
    rw [validateRequest_eq_contract req2 false]
    have hf2 : ¬(false = false ∧ req2.flag = none) := by
      rintro ⟨-, hf⟩
      rw [hf] at hflag
      cases hflag
    have he2 : ¬(req2.environment = none ∨ req2.environment = some "") := by
      rw [henv]
      exact hnegs.1
    have hu2 : ¬(req2.user = none ∨ req2.user.bind (·.id) = none ∨
        req2.user.bind (·.id) = some "") := by
      rintro (h | h | h)
      · refine hnegs.2 (Or.inr (Or.inl ?_))
        rw [← hid, h]
        rfl
      · exact hnegs.2 (Or.inr (Or.inl (hid ▸ h)))
      · exact hnegs.2 (Or.inr (Or.inr (hid ▸ h)))
    unfold validationSpecContract
    rw [if_neg hf2, if_neg he2, if_neg hu2]
  have hkey : getCacheKey req2 = getCacheKey req1 := by
    unfold getCacheKey
    rw [henv, hid]
  have hlookup := evaluateFlag_ok_lookup st req1 t tr1 v st1 evs hrun
  unfold evaluateFlag
  rw [hv2]
  simp only [hkey, hlookup]

theorem C9_cache_key_ignores_flag_witness :
    evaluateFlag
      { testState with
         flagCache := mapSet testState.flagCache (getCacheKey testRequest) feature1Resp }
      testRequest2 5000 rejectTransportS =
      (.ok (some feature1Resp),
       { testState with
          flagCache := mapSet testState.flagCache (getCacheKey testRequest) feature1Resp },
       []) :=
  C9_cache_key_ignores_flag testState
    { testState with
       flagCache := mapSet testState.flagCache (getCacheKey testRequest) feature1Resp }
    testRequest testRequest2 5000 5000 okTransportS rejectTransportS feature1Resp
    (fetchEventFlag testState testRequest :: setCacheEvents testState (getCacheKey testRequest))
    rfl rfl rfl testFlag_success_run

end PearFlag
